import Mathlib

/-!
Shallow embedding of src/netbox/resource_netbox_token.go, the single
Terraform resource of this repository.  The four lifecycle callbacks
(create, read, update, delete) are modelled as pure functions from the
Terraform state record to a new state record, a diagnostics result and the
ordered list of remote API calls performed.  The generated HTTP client is
modelled as a record of response functions (the ambient client handle); the
RFC3339 datetime parser of the strfmt library is an external dependency and
is passed in as a function.  Go strings are modelled as Lean strings with
the Go builtin len mapped to the UTF-8 byte size.
-/

set_option autoImplicit false

instance {ε α : Type} [DecidableEq ε] [DecidableEq α] : DecidableEq (Except ε α) := fun x y =>
  match x, y with
  | .error a, .error b =>
    if h : a = b then isTrue (h ▸ rfl) else isFalse (fun hh => h (Except.error.inj hh))
  | .ok a, .ok b =>
    if h : a = b then isTrue (h ▸ rfl) else isFalse (fun hh => h (Except.ok.inj hh))
  | .error _, .ok _ => isFalse (fun hh => Except.noConfusion hh)
  | .ok _, .error _ => isFalse (fun hh => Except.noConfusion hh)

/-- Go strconv parse error kinds: ErrSyntax and ErrRange. -/
inductive ParseIntErr where
  | errSyn
  | errRange
  deriving Repr, DecidableEq

/-- Digit accumulation and range clamping of Go strconv.ParseInt after the
sign has been stripped: a missing or non-digit character is ErrSyntax with
value 0; a value outside the int64 range is ErrRange with the maximum
magnitude int64 of the appropriate sign. -/
def parseInt64Core (neg : Bool) (digits : List Char) : Int × Option ParseIntErr :=
  if digits = [] ∨ ¬ digits.all (fun d => decide ('0' ≤ d) && decide (d ≤ '9')) then
    (0, some .errSyn)
  else
    let n : Nat := digits.foldl (fun a d => a * 10 + (d.toNat - Char.toNat '0')) 0
    if neg then
      if n ≤ 2 ^ 63 then (-(n : Int), none) else (-(2 ^ 63 : Int), some .errRange)
    else
      if n ≤ 2 ^ 63 - 1 then ((n : Int), none) else ((2 ^ 63 - 1 : Int), some .errRange)

/-- Go strconv.ParseInt with base 10 and bitSize 64: an optional leading
sign followed by decimal digits.  The caller in this resource always
discards the returned error. -/
def parseInt64 (s : String) : Int × Option ParseIntErr :=
  match s.data with
  | [] => (0, some .errSyn)
  | c :: rest =>
    if c = '-' then parseInt64Core true rest
    else if c = '+' then parseInt64Core false rest
    else parseInt64Core false (c :: rest)

/-- Go strconv.FormatInt with base 10: decimal representation with a leading
minus sign for negative values.  Lean toString on Int has exactly this
behaviour. -/
def formatInt (i : Int) : String := toString i

/-- Go builtin len on a string: the number of bytes of its UTF-8 encoding. -/
def golen (s : String) : Nat := s.utf8ByteSize

/-- The user object nested in a token payload (models.NestedUser): only its
numeric ID is consumed by this resource. -/
structure NestedUser where
  id : Int
  deriving Repr, DecidableEq

/-- The token payload returned by the remote API (models.Token), restricted
to the fields this resource consumes.  A strfmt.DateTime is modelled by the
RFC3339 string its String method renders. -/
structure Token where
  id : Int
  user : Option NestedUser
  key : String
  lastUsed : String
  expires : Option String
  allowedIps : List String
  writeEnabled : Bool
  description : String
  deriving Repr, DecidableEq

/-- The request body sent on create and update (models.WritableToken).  A
field that the Go code leaves at its zero value is omitted from the wire
body by the generated client, which the embedding records as none. -/
structure WritableToken where
  user : Option Int := none
  key : Option String := none
  allowedIps : List String := []
  writeEnabled : Bool := false
  description : String := ""
  expires : Option String := none
  deriving Repr, DecidableEq

/-- The Terraform state record for this resource (schema.ResourceData): the
resource ID plus one field per schema attribute. -/
structure ResourceData where
  id : String
  user_id : Int
  key : String
  allowed_ips : List String
  write_enabled : Bool
  last_used : String
  expires : String
  description : String
  deriving Repr, DecidableEq

/-- An error returned by a remote call.  The generated client surfaces a
non-2xx HTTP response of an endpoint as that endpoint operation Default
value carrying the HTTP status code; any other failure is some other error
value.  The Go code type-asserts on the Default type of the endpoint it
called, which the apiDefault constructor models. -/
inductive ApiError where
  | apiDefault (code : Int)
  | other (msg : String)
  deriving Repr, DecidableEq

/-- A diagnostics entry (diag.Diagnostics).  diag.FromErr wraps the error it
is given unchanged; a failed datetime parse is wrapped the same way but
carries the parser message. -/
inductive Diag where
  | fromErr (e : ApiError)
  | fromParseErr (msg : String)
  deriving Repr, DecidableEq

/-- One remote request/response exchange, recorded with the endpoint hit and
the request data sent. -/
inductive ApiCall where
  | tokensCreate (data : WritableToken)
  | tokensRead (id : Int)
  | tokensUpdate (id : Int) (data : WritableToken)
  | tokensDelete (id : Int)
  deriving Repr, DecidableEq

/-- The token endpoints of the generated client (api.Users), modelled as
response functions: calling an endpoint yields either its payload or an
error. -/
structure NetboxAPI where
  usersTokensCreate : WritableToken → Except ApiError Token
  usersTokensRead : Int → Except ApiError Token
  usersTokensUpdate : Int → WritableToken → Except ApiError Unit
  usersTokensDelete : Int → Except ApiError Unit

/-- The strfmt.ParseDateTime dependency: parses an RFC3339 string into a
datetime (itself modelled by its canonical string) or fails with a message. -/
def DateParser : Type := String → Except String String

/-- Result of one lifecycle callback: the state record after the call, the
diagnostics (none on success) and the remote calls made, in order. -/
structure OpResult where
  state : ResourceData
  diags : Option Diag
  calls : List ApiCall
  deriving Repr, DecidableEq

/-- Lines 76-105 of resourceNetboxTokenCreate: build the WritableToken
request body from the state record.  The key is set only when the
configured key is non-empty; expires is parsed and set only when the
expires string is non-empty, and a parse failure aborts with the error. -/
def createTokenData (pdt : DateParser) (d : ResourceData) : Except String WritableToken :=
  let userid := d.user_id
  let key := d.key
  let allowedIps := d.allowed_ips
  let data : WritableToken :=
    { user := some userid
      key := if key ≠ "" then some key else none
      allowedIps := allowedIps
      writeEnabled := d.write_enabled
      description := d.description }
  let expiresStr := d.expires
  if expiresStr ≠ "" then
    match pdt expiresStr with
    | .error e => .error e
    | .ok expires => .ok { data with expires := some expires }
  else
    .ok data

/-- Lines 166-194 of resourceNetboxTokenUpdate: build the WritableToken
request body from the state record.  Identical to the create body except
that the key is included only when it is non-empty and exactly 40 bytes
long (a v1 token key). -/
def updateTokenData (pdt : DateParser) (d : ResourceData) : Except String WritableToken :=
  let userid := d.user_id
  let key := d.key
  let allowedIps := d.allowed_ips
  let data : WritableToken :=
    { user := some userid
      key := if key ≠ "" ∧ golen key = 40 then some key else none
      allowedIps := allowedIps
      writeEnabled := d.write_enabled
      description := d.description }
  let expiresStr := d.expires
  if expiresStr ≠ "" then
    match pdt expiresStr with
    | .error e => .error e
    | .ok expires => .ok { data with expires := some expires }
  else
    .ok data

/-- resourceNetboxTokenRead (lines 124-161).  The stored ID is parsed with
the error discarded; a typed Default error with HTTP code 404 clears the ID
and succeeds; any other error is surfaced via diag.FromErr; on success each
schema attribute is set from the payload, the user ID only when the payload
carries a user, the key only when the payload key is non-empty, expires
only when the payload expires is present. -/
def resourceNetboxTokenRead (api : NetboxAPI) (d : ResourceData) : OpResult :=
  let id := (parseInt64 d.id).1
  match api.usersTokensRead id with
  | .error e =>
    match e with
    | .apiDefault code =>
      if code = 404 then
        { state := { d with id := "" }, diags := none, calls := [.tokensRead id] }
      else
        { state := d, diags := some (.fromErr e), calls := [.tokensRead id] }
    | .other _ =>
      { state := d, diags := some (.fromErr e), calls := [.tokensRead id] }
  | .ok token =>
    let d :=
      match token.user with
      | some u => { d with user_id := u.id }
      | none => d
    let d := if token.key ≠ "" then { d with key := token.key } else d
    let d := { d with last_used := token.lastUsed }
    let d :=
      match token.expires with
      | some ex => { d with expires := ex }
      | none => d
    let d :=
      { d with
        allowed_ips := token.allowedIps
        write_enabled := token.writeEnabled
        description := token.description }
    { state := d, diags := none, calls := [.tokensRead id] }

/-- resourceNetboxTokenCreate (lines 74-122): build the body, call the
create endpoint, surface its error directly, otherwise set the ID to the
decimal form of the payload ID, set the key from the response only when the
response key is non-empty, and finish by delegating to the read callback. -/
def resourceNetboxTokenCreate (pdt : DateParser) (api : NetboxAPI) (d : ResourceData) : OpResult :=
  match createTokenData pdt d with
  | .error e => { state := d, diags := some (.fromParseErr e), calls := [] }
  | .ok data =>
    match api.usersTokensCreate data with
    | .error e => { state := d, diags := some (.fromErr e), calls := [.tokensCreate data] }
    | .ok payload =>
      let d := { d with id := formatInt payload.id }
      let d := if payload.key ≠ "" then { d with key := payload.key } else d
      let r := resourceNetboxTokenRead api d
      { r with calls := .tokensCreate data :: r.calls }

/-- resourceNetboxTokenUpdate (lines 163-202): parse the stored ID with the
error discarded, build the body, call the update endpoint, surface its
error directly, and finish by delegating to the read callback. -/
def resourceNetboxTokenUpdate (pdt : DateParser) (api : NetboxAPI) (d : ResourceData) : OpResult :=
  let id := (parseInt64 d.id).1
  match updateTokenData pdt d with
  | .error e => { state := d, diags := some (.fromParseErr e), calls := [] }
  | .ok data =>
    match api.usersTokensUpdate id data with
    | .error e => { state := d, diags := some (.fromErr e), calls := [.tokensUpdate id data] }
    | .ok _ =>
      let r := resourceNetboxTokenRead api d
      { r with calls := .tokensUpdate id data :: r.calls }

/-- resourceNetboxTokenDelete (lines 204-220): parse the stored ID with the
error discarded, call the delete endpoint; a typed Default error with HTTP
code 404 clears the ID and succeeds, any other error is surfaced via
diag.FromErr, and on success the ID is cleared. -/
def resourceNetboxTokenDelete (api : NetboxAPI) (d : ResourceData) : OpResult :=
  let id := (parseInt64 d.id).1
  match api.usersTokensDelete id with
  | .error e =>
    match e with
    | .apiDefault code =>
      if code = 404 then
        { state := { d with id := "" }, diags := none, calls := [.tokensDelete id] }
      else
        { state := d, diags := some (.fromErr e), calls := [.tokensDelete id] }
    | .other _ =>
      { state := d, diags := some (.fromErr e), calls := [.tokensDelete id] }
  | .ok _ =>
    { state := { d with id := "" }, diags := none, calls := [.tokensDelete id] }

/-! Concrete fixtures used by witnesses and counterexamples. -/

/-- A datetime parser that accepts every string as already canonical. -/
def pdtOK : DateParser := fun s => .ok s

/-- A typical state record with no configured key. -/
def d0 : ResourceData :=
  { id := "1", user_id := 7, key := "", allowed_ips := ["10.0.0.0/24"]
    write_enabled := true, last_used := "", expires := "", description := "hello" }

/-- A state record holding a v2-format key (non-empty, not 40 bytes). -/
def d5 : ResourceData :=
  { id := "1", user_id := 7, key := "nbt_abc", allowed_ips := []
    write_enabled := true, last_used := "", expires := "", description := "x" }

/-- A state record holding a 40-byte v1 key. -/
def dKey40 : ResourceData :=
  { id := "1", user_id := 7, key := "0123456789012345678901234567890123456789"
    allowed_ips := [], write_enabled := false, last_used := ""
    expires := "2030-01-01T00:00:00Z", description := "x" }

/-- A state record whose stored ID is not a decimal integer. -/
def dBad : ResourceData :=
  { id := "abc", user_id := 7, key := "", allowed_ips := []
    write_enabled := false, last_used := "", expires := "", description := "" }

/-- A remote payload echoing the attributes of d0, with an empty key. -/
def tok0 : Token :=
  { id := 5, user := some { id := 7 }, key := "", lastUsed := "2024-01-01T00:00:00Z"
    expires := none, allowedIps := ["10.0.0.0/24"], writeEnabled := true
    description := "hello" }

/-- A client whose every endpoint succeeds, answering reads with tok0. -/
def apiOK : NetboxAPI :=
  { usersTokensCreate := fun _ => .ok tok0
    usersTokensRead := fun _ => .ok tok0
    usersTokensUpdate := fun _ _ => .ok ()
    usersTokensDelete := fun _ => .ok () }

/-- A client whose read and delete endpoints answer not found (404). -/
def api404 : NetboxAPI :=
  { usersTokensCreate := fun _ => .ok tok0
    usersTokensRead := fun _ => .error (.apiDefault 404)
    usersTokensUpdate := fun _ _ => .ok ()
    usersTokensDelete := fun _ => .error (.apiDefault 404) }

/-- A client whose every endpoint fails with a non-404 error. -/
def apiErr : NetboxAPI :=
  { usersTokensCreate := fun _ => .error (.other "boom")
    usersTokensRead := fun _ => .error (.other "boom")
    usersTokensUpdate := fun _ _ => .error (.other "boom")
    usersTokensDelete := fun _ => .error (.other "boom") }

/-- A client where create succeeds but the follow-up read answers 404. -/
def apiGone : NetboxAPI :=
  { usersTokensCreate := fun _ => .ok tok0
    usersTokensRead := fun _ => .error (.apiDefault 404)
    usersTokensUpdate := fun _ _ => .ok ()
    usersTokensDelete := fun _ => .ok () }

/-! Helper lemmas shared by the claim proofs. -/

theorem parseInt64Core_errSyn (neg : Bool) (digits : List Char) :
    (parseInt64Core neg digits).2 = some ParseIntErr.errSyn →
    (parseInt64Core neg digits).1 = 0 := by
  unfold parseInt64Core
  split
  · intro _; rfl
  · dsimp only
    split
    · split <;> simp
    · split <;> simp

theorem parseInt64_errSyn (s : String) :
    (parseInt64 s).2 = some ParseIntErr.errSyn → (parseInt64 s).1 = 0 := by
  unfold parseInt64
  rcases s.data with _ | ⟨c, rest⟩
  · intro _; rfl
  · dsimp only
    split
    · exact parseInt64Core_errSyn _ _
    · split
      · exact parseInt64Core_errSyn _ _
      · exact parseInt64Core_errSyn _ _

theorem read_calls_eq (api : NetboxAPI) (d : ResourceData) :
    (resourceNetboxTokenRead api d).calls = [ApiCall.tokensRead (parseInt64 d.id).1] := by
  unfold resourceNetboxTokenRead
  dsimp only
  rcases api.usersTokensRead (parseInt64 d.id).1 with e | t
  · rcases e with code | msg
    · dsimp only; split <;> rfl
    · rfl
  · rfl

theorem read_404_eq (api : NetboxAPI) (d : ResourceData)
    (h : api.usersTokensRead (parseInt64 d.id).1 = .error (.apiDefault 404)) :
    resourceNetboxTokenRead api d =
      { state := { d with id := "" }, diags := none
        calls := [ApiCall.tokensRead (parseInt64 d.id).1] } := by
  unfold resourceNetboxTokenRead
  dsimp only
  rw [h]
  rfl

theorem read_err_eq (api : NetboxAPI) (d : ResourceData) (e : ApiError)
    (h : api.usersTokensRead (parseInt64 d.id).1 = .error e)
    (h404 : e ≠ .apiDefault 404) :
    resourceNetboxTokenRead api d =
      { state := d, diags := some (.fromErr e)
        calls := [ApiCall.tokensRead (parseInt64 d.id).1] } := by
  unfold resourceNetboxTokenRead
  dsimp only
  rw [h]
  rcases e with code | msg
  · have hc : code ≠ 404 := fun hc => h404 (by rw [hc])
    simp [hc]
  · rfl

theorem read_ok_eq (api : NetboxAPI) (d : ResourceData) (t : Token)
    (h : api.usersTokensRead (parseInt64 d.id).1 = .ok t) :
    resourceNetboxTokenRead api d =
      { state :=
          { id := d.id
            user_id := match t.user with | some u => u.id | none => d.user_id
            key := if t.key ≠ "" then t.key else d.key
            allowed_ips := t.allowedIps
            write_enabled := t.writeEnabled
            last_used := t.lastUsed
            expires := match t.expires with | some ex => ex | none => d.expires
            description := t.description }
        diags := none
        calls := [ApiCall.tokensRead (parseInt64 d.id).1] } := by
  unfold resourceNetboxTokenRead
  dsimp only
  rw [h]
  rcases t with ⟨tid, tu, tk, tl, te, ta, tw, td⟩
  rcases tu with _ | u <;> rcases te with _ | ex <;>
    by_cases hk : tk = "" <;> simp [hk]

theorem delete_404_eq (api : NetboxAPI) (d : ResourceData)
    (h : api.usersTokensDelete (parseInt64 d.id).1 = .error (.apiDefault 404)) :
    resourceNetboxTokenDelete api d =
      { state := { d with id := "" }, diags := none
        calls := [ApiCall.tokensDelete (parseInt64 d.id).1] } := by
  unfold resourceNetboxTokenDelete
  dsimp only
  rw [h]
  rfl

theorem delete_err_eq (api : NetboxAPI) (d : ResourceData) (e : ApiError)
    (h : api.usersTokensDelete (parseInt64 d.id).1 = .error e)
    (h404 : e ≠ .apiDefault 404) :
    resourceNetboxTokenDelete api d =
      { state := d, diags := some (.fromErr e)
        calls := [ApiCall.tokensDelete (parseInt64 d.id).1] } := by
  unfold resourceNetboxTokenDelete
  dsimp only
  rw [h]
  rcases e with code | msg
  · have hc : code ≠ 404 := fun hc => h404 (by rw [hc])
    simp [hc]
  · rfl

theorem delete_ok_eq (api : NetboxAPI) (d : ResourceData)
    (h : api.usersTokensDelete (parseInt64 d.id).1 = .ok ()) :
    resourceNetboxTokenDelete api d =
      { state := { d with id := "" }, diags := none
        calls := [ApiCall.tokensDelete (parseInt64 d.id).1] } := by
  unfold resourceNetboxTokenDelete
  dsimp only
  rw [h]

theorem delete_calls_eq (api : NetboxAPI) (d : ResourceData) :
    (resourceNetboxTokenDelete api d).calls = [ApiCall.tokensDelete (parseInt64 d.id).1] := by
  unfold resourceNetboxTokenDelete
  dsimp only
  rcases api.usersTokensDelete (parseInt64 d.id).1 with e | u
  · rcases e with code | msg
    · dsimp only; split <;> rfl
    · rfl
  · rfl

theorem create_parse_err_eq (pdt : DateParser) (api : NetboxAPI) (d : ResourceData)
    (e : String) (hbody : createTokenData pdt d = .error e) :
    resourceNetboxTokenCreate pdt api d =
      { state := d, diags := some (.fromParseErr e), calls := [] } := by
  unfold resourceNetboxTokenCreate
  rw [hbody]

theorem create_err_eq (pdt : DateParser) (api : NetboxAPI) (d : ResourceData)
    (data : WritableToken) (e : ApiError)
    (hbody : createTokenData pdt d = .ok data)
    (hc : api.usersTokensCreate data = .error e) :
    resourceNetboxTokenCreate pdt api d =
      { state := d, diags := some (.fromErr e), calls := [.tokensCreate data] } := by
  unfold resourceNetboxTokenCreate
  rw [hbody]
  dsimp only
  rw [hc]

theorem create_ok_read_ok_eq (pdt : DateParser) (api : NetboxAPI) (d : ResourceData)
    (data : WritableToken) (p t : Token)
    (hbody : createTokenData pdt d = .ok data)
    (hc : api.usersTokensCreate data = .ok p)
    (hr : api.usersTokensRead (parseInt64 (formatInt p.id)).1 = .ok t) :
    resourceNetboxTokenCreate pdt api d =
      { state :=
          { id := formatInt p.id
            user_id := match t.user with | some u => u.id | none => d.user_id
            key := if t.key ≠ "" then t.key
                   else if p.key ≠ "" then p.key else d.key
            allowed_ips := t.allowedIps
            write_enabled := t.writeEnabled
            last_used := t.lastUsed
            expires := match t.expires with | some ex => ex | none => d.expires
            description := t.description }
        diags := none
        calls := [.tokensCreate data, .tokensRead (parseInt64 (formatInt p.id)).1] } := by
  unfold resourceNetboxTokenCreate
  rw [hbody]
  dsimp only
  rw [hc]
  dsimp only
  by_cases hpk : p.key = ""
  · simp only [hpk, ne_eq, not_true_eq_false, if_false, ite_false]
    rw [read_ok_eq api { d with id := formatInt p.id } t hr]
  · simp only [hpk, ne_eq, not_false_eq_true, if_true, ite_true]
    rw [read_ok_eq api { d with id := formatInt p.id, key := p.key } t hr]

theorem create_ok_read_404_eq (pdt : DateParser) (api : NetboxAPI) (d : ResourceData)
    (data : WritableToken) (p : Token)
    (hbody : createTokenData pdt d = .ok data)
    (hc : api.usersTokensCreate data = .ok p)
    (hr : api.usersTokensRead (parseInt64 (formatInt p.id)).1 = .error (.apiDefault 404)) :
    (resourceNetboxTokenCreate pdt api d).state.id = "" ∧
    (resourceNetboxTokenCreate pdt api d).diags = none := by
  unfold resourceNetboxTokenCreate
  rw [hbody]
  dsimp only
  rw [hc]
  dsimp only
  by_cases hpk : p.key = ""
  · simp only [hpk, ne_eq, not_true_eq_false, if_false, ite_false]
    rw [read_404_eq api { d with id := formatInt p.id } hr]
    simp
  · simp only [hpk, ne_eq, not_false_eq_true, if_true, ite_true]
    rw [read_404_eq api { d with id := formatInt p.id, key := p.key } hr]
    simp

theorem update_parse_err_eq (pdt : DateParser) (api : NetboxAPI) (d : ResourceData)
    (e : String) (hbody : updateTokenData pdt d = .error e) :
    resourceNetboxTokenUpdate pdt api d =
      { state := d, diags := some (.fromParseErr e), calls := [] } := by
  unfold resourceNetboxTokenUpdate
  dsimp only
  rw [hbody]

theorem update_err_eq (pdt : DateParser) (api : NetboxAPI) (d : ResourceData)
    (data : WritableToken) (e : ApiError)
    (hbody : updateTokenData pdt d = .ok data)
    (hu : api.usersTokensUpdate (parseInt64 d.id).1 data = .error e) :
    resourceNetboxTokenUpdate pdt api d =
      { state := d, diags := some (.fromErr e)
        calls := [.tokensUpdate (parseInt64 d.id).1 data] } := by
  unfold resourceNetboxTokenUpdate
  dsimp only
  rw [hbody]
  dsimp only
  rw [hu]

theorem update_ok_eq (pdt : DateParser) (api : NetboxAPI) (d : ResourceData)
    (data : WritableToken)
    (hbody : updateTokenData pdt d = .ok data)
    (hu : api.usersTokensUpdate (parseInt64 d.id).1 data = .ok ()) :
    resourceNetboxTokenUpdate pdt api d =
      { resourceNetboxTokenRead api d with
        calls := .tokensUpdate (parseInt64 d.id).1 data ::
          (resourceNetboxTokenRead api d).calls } := by
  unfold resourceNetboxTokenUpdate
  dsimp only
  rw [hbody]
  dsimp only
  rw [hu]

theorem createTokenData_ok_fields (pdt : DateParser) (d : ResourceData)
    (data : WritableToken) (h : createTokenData pdt d = .ok data) :
    data.user = some d.user_id ∧
    data.allowedIps = d.allowed_ips ∧
    data.writeEnabled = d.write_enabled ∧
    data.description = d.description ∧
    data.key = (if d.key ≠ "" then some d.key else none) ∧
    data.expires = (if d.expires = "" then none else (pdt d.expires).toOption) := by
  unfold createTokenData at h
  dsimp only at h
  by_cases he : d.expires = ""
  · rw [if_neg (by simp [he])] at h
    obtain rfl := (Except.ok.inj h).symm
    exact ⟨rfl, rfl, rfl, rfl, rfl, by simp [he]⟩
  · rw [if_pos (by simp [he])] at h
    rcases hp : pdt d.expires with e | v <;> rw [hp] at h
    · cases h
    · obtain rfl := (Except.ok.inj h).symm
      exact ⟨rfl, rfl, rfl, rfl, rfl, by simp [he, hp, Except.toOption]⟩

theorem updateTokenData_ok_fields (pdt : DateParser) (d : ResourceData)
    (data : WritableToken) (h : updateTokenData pdt d = .ok data) :
    data.user = some d.user_id ∧
    data.allowedIps = d.allowed_ips ∧
    data.writeEnabled = d.write_enabled ∧
    data.description = d.description ∧
    data.key = (if d.key ≠ "" ∧ golen d.key = 40 then some d.key else none) ∧
    data.expires = (if d.expires = "" then none else (pdt d.expires).toOption) := by
  unfold updateTokenData at h
  dsimp only at h
  by_cases he : d.expires = ""
  · rw [if_neg (by simp [he])] at h
    obtain rfl := (Except.ok.inj h).symm
    exact ⟨rfl, rfl, rfl, rfl, rfl, by simp [he]⟩
  · rw [if_pos (by simp [he])] at h
    rcases hp : pdt d.expires with e | v <;> rw [hp] at h
    · cases h
    · obtain rfl := (Except.ok.inj h).symm
      exact ⟨rfl, rfl, rfl, rfl, rfl, by simp [he, hp, Except.toOption]⟩

theorem create_ok_calls_eq (pdt : DateParser) (api : NetboxAPI) (d : ResourceData)
    (data : WritableToken) (p : Token)
    (hbody : createTokenData pdt d = .ok data)
    (hc : api.usersTokensCreate data = .ok p) :
    (resourceNetboxTokenCreate pdt api d).calls =
      [.tokensCreate data, .tokensRead (parseInt64 (formatInt p.id)).1] := by
  unfold resourceNetboxTokenCreate
  rw [hbody]
  dsimp only
  rw [hc]
  dsimp only
  by_cases hpk : p.key = "" <;>
    simp only [hpk, ne_eq, not_true_eq_false, not_false_eq_true, if_false, if_true,
      ite_false, ite_true] <;>
    simp [read_calls_eq]

/-! Claim theorems. -/

/-- C1: when the remote call of a read or a delete fails with a not-found
(HTTP 404) Default response, the operation succeeds (no diagnostics) and
local state is cleared by setting the resource ID to the empty string. -/
theorem c1_read_delete_404_clears_state (api : NetboxAPI) (d : ResourceData)
    (hr : api.usersTokensRead (parseInt64 d.id).1 = .error (.apiDefault 404))
    (hd : api.usersTokensDelete (parseInt64 d.id).1 = .error (.apiDefault 404)) :
    (resourceNetboxTokenRead api d).state.id = "" ∧
    (resourceNetboxTokenRead api d).diags = none ∧
    (resourceNetboxTokenDelete api d).state.id = "" ∧
    (resourceNetboxTokenDelete api d).diags = none := by
  rw [read_404_eq api d hr, delete_404_eq api d hd]
  exact ⟨rfl, rfl, rfl, rfl⟩

/-- C1 witness: a concrete client answering 404 on read and delete. -/
theorem c1_read_delete_404_clears_state_witness :
    (resourceNetboxTokenRead api404 d0).state.id = "" ∧
    (resourceNetboxTokenRead api404 d0).diags = none ∧
    (resourceNetboxTokenDelete api404 d0).state.id = "" ∧
    (resourceNetboxTokenDelete api404 d0).diags = none :=
  c1_read_delete_404_clears_state api404 d0 rfl rfl

/-- C2: creating a token and then reading it yields local state whose
user_id and description equal the values supplied at creation, assuming the
remote service echoes back the stored user and description on the read. -/
theorem c2_create_read_roundtrip (pdt : DateParser) (api : NetboxAPI) (d : ResourceData)
    (data : WritableToken) (p t : Token)
    (hbody : createTokenData pdt d = .ok data)
    (hc : api.usersTokensCreate data = .ok p)
    (hr : api.usersTokensRead (parseInt64 (formatInt p.id)).1 = .ok t)
    (hu : t.user = some { id := d.user_id })
    (hdesc : t.description = d.description) :
    (resourceNetboxTokenCreate pdt api d).state.user_id = d.user_id ∧
    (resourceNetboxTokenCreate pdt api d).state.description = d.description ∧
    (resourceNetboxTokenCreate pdt api d).diags = none := by
  rw [create_ok_read_ok_eq pdt api d data p t hbody hc hr]
  simp [hu, hdesc]

/-- C2 witness: a concrete echoing client. -/
theorem c2_create_read_roundtrip_witness :
    (resourceNetboxTokenCreate pdtOK apiOK d0).state.user_id = d0.user_id ∧
    (resourceNetboxTokenCreate pdtOK apiOK d0).state.description = d0.description ∧
    (resourceNetboxTokenCreate pdtOK apiOK d0).diags = none :=
  c2_create_read_roundtrip pdtOK apiOK d0
    { user := some 7, key := none, allowedIps := ["10.0.0.0/24"], writeEnabled := true
      description := "hello", expires := none }
    tok0 tok0 rfl rfl rfl rfl rfl

/-- C3: a remote-call error other than a not-found response during read or
delete is surfaced unchanged as the diagnostics of the operation, for all
of create, read, update and delete. -/
theorem c3_remote_errors_surfaced (pdt : DateParser) (api : NetboxAPI) (d : ResourceData)
    (dataC dataU : WritableToken) (ec er eu ed : ApiError)
    (hbc : createTokenData pdt d = .ok dataC)
    (hbu : updateTokenData pdt d = .ok dataU)
    (hc : api.usersTokensCreate dataC = .error ec)
    (hr : api.usersTokensRead (parseInt64 d.id).1 = .error er)
    (hu : api.usersTokensUpdate (parseInt64 d.id).1 dataU = .error eu)
    (hd : api.usersTokensDelete (parseInt64 d.id).1 = .error ed)
    (hr404 : er ≠ .apiDefault 404)
    (hd404 : ed ≠ .apiDefault 404) :
    (resourceNetboxTokenCreate pdt api d).diags = some (.fromErr ec) ∧
    (resourceNetboxTokenRead api d).diags = some (.fromErr er) ∧
    (resourceNetboxTokenUpdate pdt api d).diags = some (.fromErr eu) ∧
    (resourceNetboxTokenDelete api d).diags = some (.fromErr ed) := by
  rw [create_err_eq pdt api d dataC ec hbc hc,
      read_err_eq api d er hr hr404,
      update_err_eq pdt api d dataU eu hbu hu,
      delete_err_eq api d ed hd hd404]
  exact ⟨rfl, rfl, rfl, rfl⟩

/-- C3 witness: a concrete client failing everywhere with a non-404 error. -/
theorem c3_remote_errors_surfaced_witness :
    (resourceNetboxTokenCreate pdtOK apiErr d0).diags = some (.fromErr (.other "boom")) ∧
    (resourceNetboxTokenRead apiErr d0).diags = some (.fromErr (.other "boom")) ∧
    (resourceNetboxTokenUpdate pdtOK apiErr d0).diags = some (.fromErr (.other "boom")) ∧
    (resourceNetboxTokenDelete apiErr d0).diags = some (.fromErr (.other "boom")) :=
  c3_remote_errors_surfaced pdtOK apiErr d0
    { user := some 7, key := none, allowedIps := ["10.0.0.0/24"], writeEnabled := true
      description := "hello", expires := none }
    { user := some 7, key := none, allowedIps := ["10.0.0.0/24"], writeEnabled := true
      description := "hello", expires := none }
    (.other "boom") (.other "boom") (.other "boom") (.other "boom")
    rfl rfl rfl rfl rfl rfl (by decide) (by decide)

/-- C4 counterexample: a successful create performs two remote exchanges,
the create call followed by the delegated read call, so the claim that
every lifecycle operation performs exactly one exchange is false. -/
theorem c4_counterexample :
    (resourceNetboxTokenCreate pdtOK apiOK d0).calls.length = 2 ∧
    ¬ (resourceNetboxTokenCreate pdtOK apiOK d0).calls.length = 1 := by
  decide

/-- C4 amended: read and delete perform exactly one remote exchange; create
and update perform one call to their own endpoint and, when that call
succeeds, exactly one more call made by the delegated read; a failed
expiration parse performs no remote call; no endpoint is ever called twice
within one operation (no retries). -/
theorem c4_call_traces (pdt : DateParser) (api : NetboxAPI) (d : ResourceData) :
    (resourceNetboxTokenRead api d).calls = [ApiCall.tokensRead (parseInt64 d.id).1] ∧
    (resourceNetboxTokenDelete api d).calls = [ApiCall.tokensDelete (parseInt64 d.id).1] ∧
    (resourceNetboxTokenCreate pdt api d).calls =
      (match createTokenData pdt d with
       | .error _ => []
       | .ok data =>
         match api.usersTokensCreate data with
         | .error _ => [.tokensCreate data]
         | .ok p => [.tokensCreate data, .tokensRead (parseInt64 (formatInt p.id)).1]) ∧
    (resourceNetboxTokenUpdate pdt api d).calls =
      (match updateTokenData pdt d with
       | .error _ => []
       | .ok data =>
         match api.usersTokensUpdate (parseInt64 d.id).1 data with
         | .error _ => [.tokensUpdate (parseInt64 d.id).1 data]
         | .ok _ => [.tokensUpdate (parseInt64 d.id).1 data,
                     .tokensRead (parseInt64 d.id).1]) := by
  refine ⟨read_calls_eq api d, delete_calls_eq api d, ?_, ?_⟩
  · rcases hb : createTokenData pdt d with e | data
    · rw [create_parse_err_eq pdt api d e hb]
    · rcases hc : api.usersTokensCreate data with e | p
      · rw [create_err_eq pdt api d data e hb hc]
        dsimp only
        rw [hc]
      · rw [create_ok_calls_eq pdt api d data p hb hc]
        dsimp only
        rw [hc]
  · rcases hb : updateTokenData pdt d with e | data
    · rw [update_parse_err_eq pdt api d e hb]
    · rcases hu : api.usersTokensUpdate (parseInt64 d.id).1 data with e | u
      · rw [update_err_eq pdt api d data e hb hu]
        dsimp only
        rw [hu]
      · rw [update_ok_eq pdt api d data hb hu]
        dsimp only
        rw [hu]
        dsimp only
        simp [read_calls_eq]

/-- C5 counterexample: with a state holding the v2-format key nbt_abc, the
update body omits the key field entirely, so the update request does not
contain every token attribute held in local state. -/
theorem c5_counterexample :
    d5.key ≠ "" ∧
    updateTokenData pdtOK d5 =
      .ok { user := some 7, key := none, allowedIps := [], writeEnabled := true
            description := "x", expires := none } := by
  decide

/-- C5 amended: the update body always carries the user, allowed IPs,
write-enabled flag and description held in local state; the key is carried
only when it is non-empty and exactly 40 bytes long, and the expiration
only when the local expires string is non-empty (and then as its parsed
value). -/
theorem c5_update_full_object (pdt : DateParser) (d : ResourceData)
    (data : WritableToken) (h : updateTokenData pdt d = .ok data) :
    data.user = some d.user_id ∧
    data.allowedIps = d.allowed_ips ∧
    data.writeEnabled = d.write_enabled ∧
    data.description = d.description ∧
    data.key = (if d.key ≠ "" ∧ golen d.key = 40 then some d.key else none) ∧
    data.expires = (if d.expires = "" then none else (pdt d.expires).toOption) :=
  updateTokenData_ok_fields pdt d data h

/-- C5 witness: a state with a 40-byte v1 key and a set expiration. -/
theorem c5_update_full_object_witness :
    ({ user := some 7, key := some "0123456789012345678901234567890123456789"
       allowedIps := [], writeEnabled := false, description := "x"
       expires := some "2030-01-01T00:00:00Z" } : WritableToken).user = some dKey40.user_id ∧
    ({ user := some 7, key := some "0123456789012345678901234567890123456789"
       allowedIps := [], writeEnabled := false, description := "x"
       expires := some "2030-01-01T00:00:00Z" } : WritableToken).allowedIps = dKey40.allowed_ips ∧
    ({ user := some 7, key := some "0123456789012345678901234567890123456789"
       allowedIps := [], writeEnabled := false, description := "x"
       expires := some "2030-01-01T00:00:00Z" } : WritableToken).writeEnabled = dKey40.write_enabled ∧
    ({ user := some 7, key := some "0123456789012345678901234567890123456789"
       allowedIps := [], writeEnabled := false, description := "x"
       expires := some "2030-01-01T00:00:00Z" } : WritableToken).description = dKey40.description ∧
    ({ user := some 7, key := some "0123456789012345678901234567890123456789"
       allowedIps := [], writeEnabled := false, description := "x"
       expires := some "2030-01-01T00:00:00Z" } : WritableToken).key =
      (if dKey40.key ≠ "" ∧ golen dKey40.key = 40 then some dKey40.key else none) ∧
    ({ user := some 7, key := some "0123456789012345678901234567890123456789"
       allowedIps := [], writeEnabled := false, description := "x"
       expires := some "2030-01-01T00:00:00Z" } : WritableToken).expires =
      (if dKey40.expires = "" then none else (pdtOK dKey40.expires).toOption) :=
  c5_update_full_object pdtOK dKey40
    { user := some 7, key := some "0123456789012345678901234567890123456789"
      allowedIps := [], writeEnabled := false, description := "x"
      expires := some "2030-01-01T00:00:00Z" }
    (by decide)

/-- C6 counterexample: a successful read whose payload carries an empty key
leaves the previously stored key in place rather than reflecting the
payload key field into local state. -/
theorem c6_counterexample :
    (resourceNetboxTokenRead apiOK d5).diags = none ∧
    tok0.key = "" ∧
    (resourceNetboxTokenRead apiOK d5).state.key = "nbt_abc" ∧
    (resourceNetboxTokenRead apiOK d5).state.key ≠ tok0.key := by
  decide

/-- C6 amended: after a successful read, last_used, allowed_ips,
write_enabled and description always equal the payload fields; user_id
equals the payload user ID when the payload carries a user, the key equals
the payload key when that key is non-empty, and expires equals the payload
expiration when one is present; otherwise each of those keeps its prior
local value. -/
theorem c6_read_reflects_remote (api : NetboxAPI) (d : ResourceData) (t : Token)
    (h : api.usersTokensRead (parseInt64 d.id).1 = .ok t) :
    (resourceNetboxTokenRead api d).diags = none ∧
    (resourceNetboxTokenRead api d).state.last_used = t.lastUsed ∧
    (resourceNetboxTokenRead api d).state.allowed_ips = t.allowedIps ∧
    (resourceNetboxTokenRead api d).state.write_enabled = t.writeEnabled ∧
    (resourceNetboxTokenRead api d).state.description = t.description ∧
    (resourceNetboxTokenRead api d).state.user_id =
      (match t.user with | some u => u.id | none => d.user_id) ∧
    (resourceNetboxTokenRead api d).state.key =
      (if t.key ≠ "" then t.key else d.key) ∧
    (resourceNetboxTokenRead api d).state.expires =
      (match t.expires with | some ex => ex | none => d.expires) := by
  rw [read_ok_eq api d t h]
  exact ⟨rfl, rfl, rfl, rfl, rfl, rfl, rfl, rfl⟩

/-- C6 witness: a concrete successful read. -/
theorem c6_read_reflects_remote_witness :
    (resourceNetboxTokenRead apiOK d0).diags = none ∧
    (resourceNetboxTokenRead apiOK d0).state.last_used = tok0.lastUsed ∧
    (resourceNetboxTokenRead apiOK d0).state.allowed_ips = tok0.allowedIps ∧
    (resourceNetboxTokenRead apiOK d0).state.write_enabled = tok0.writeEnabled ∧
    (resourceNetboxTokenRead apiOK d0).state.description = tok0.description ∧
    (resourceNetboxTokenRead apiOK d0).state.user_id =
      (match tok0.user with | some u => u.id | none => d0.user_id) ∧
    (resourceNetboxTokenRead apiOK d0).state.key =
      (if tok0.key ≠ "" then tok0.key else d0.key) ∧
    (resourceNetboxTokenRead apiOK d0).state.expires =
      (match tok0.expires with | some ex => ex | none => d0.expires) :=
  c6_read_reflects_remote apiOK d0 tok0 rfl

/-- C7 counterexample: a create whose remote call succeeds with ID 5 but
whose follow-up read reports not found returns success with the local ID
cleared to the empty string, not "5". -/
theorem c7_counterexample :
    (resourceNetboxTokenCreate pdtOK apiGone d0).diags = none ∧
    formatInt tok0.id = "5" ∧
    (resourceNetboxTokenCreate pdtOK apiGone d0).state.id = "" ∧
    (resourceNetboxTokenCreate pdtOK apiGone d0).state.id ≠ formatInt tok0.id := by
  decide

/-- C7 amended: after a successful create whose follow-up read finds the
token, the local resource ID equals the decimal string representation of
the numeric ID assigned by the remote service in the create response (a
not-found follow-up read instead clears the ID while still succeeding). -/
theorem c7_create_sets_decimal_id (pdt : DateParser) (api : NetboxAPI) (d : ResourceData)
    (data : WritableToken) (p t : Token)
    (hbody : createTokenData pdt d = .ok data)
    (hc : api.usersTokensCreate data = .ok p)
    (hr : api.usersTokensRead (parseInt64 (formatInt p.id)).1 = .ok t) :
    (resourceNetboxTokenCreate pdt api d).state.id = formatInt p.id ∧
    (resourceNetboxTokenCreate pdt api d).diags = none := by
  rw [create_ok_read_ok_eq pdt api d data p t hbody hc hr]
  exact ⟨rfl, rfl⟩

/-- C7 witness: a concrete successful create and read. -/
theorem c7_create_sets_decimal_id_witness :
    (resourceNetboxTokenCreate pdtOK apiOK d0).state.id = formatInt tok0.id ∧
    (resourceNetboxTokenCreate pdtOK apiOK d0).diags = none :=
  c7_create_sets_decimal_id pdtOK apiOK d0
    { user := some 7, key := none, allowedIps := ["10.0.0.0/24"], writeEnabled := true
      description := "hello", expires := none }
    tok0 tok0 rfl rfl rfl

/-- C8: the update body carries the key field exactly when the locally
stored key is non-empty and its Go length (bytes) is exactly 40; any other
key, including v2-format keys, is left out of the update payload. -/
theorem c8_update_key_iff_v1 (pdt : DateParser) (d : ResourceData)
    (data : WritableToken) (h : updateTokenData pdt d = .ok data) :
    data.key = (if d.key ≠ "" ∧ golen d.key = 40 then some d.key else none) ∧
    (data.key ≠ none ↔ (d.key ≠ "" ∧ golen d.key = 40)) := by
  have hk := (updateTokenData_ok_fields pdt d data h).2.2.2.2.1
  refine ⟨hk, ?_⟩
  rw [hk]
  by_cases hc : d.key ≠ "" ∧ golen d.key = 40 <;> simp [hc]

/-- C8 witness: a 40-byte key is carried in the update body. -/
theorem c8_update_key_iff_v1_witness :
    ({ user := some 7, key := some "0123456789012345678901234567890123456789"
       allowedIps := [], writeEnabled := false, description := "x"
       expires := some "2030-01-01T00:00:00Z" } : WritableToken).key =
      (if dKey40.key ≠ "" ∧ golen dKey40.key = 40 then some dKey40.key else none) ∧
    (({ user := some 7, key := some "0123456789012345678901234567890123456789"
        allowedIps := [], writeEnabled := false, description := "x"
        expires := some "2030-01-01T00:00:00Z" } : WritableToken).key ≠ none ↔
      (dKey40.key ≠ "" ∧ golen dKey40.key = 40)) :=
  c8_update_key_iff_v1 pdtOK dKey40
    { user := some 7, key := some "0123456789012345678901234567890123456789"
      allowedIps := [], writeEnabled := false, description := "x"
      expires := some "2030-01-01T00:00:00Z" }
    (by decide)

/-- C9: the create body carries the key only when the configured key is
non-empty, and after a create or a read the local key is overwritten only
by a non-empty response key: an empty key in the create or read response
leaves the previously configured key in place. -/
theorem c9_key_not_clobbered (pdt : DateParser) (api : NetboxAPI) (d : ResourceData)
    (data : WritableToken) (p t t0 : Token)
    (hbody : createTokenData pdt d = .ok data)
    (hc : api.usersTokensCreate data = .ok p)
    (hr : api.usersTokensRead (parseInt64 (formatInt p.id)).1 = .ok t)
    (hr0 : api.usersTokensRead (parseInt64 d.id).1 = .ok t0) :
    data.key = (if d.key ≠ "" then some d.key else none) ∧
    (resourceNetboxTokenCreate pdt api d).state.key =
      (if t.key ≠ "" then t.key else if p.key ≠ "" then p.key else d.key) ∧
    (resourceNetboxTokenRead api d).state.key =
      (if t0.key ≠ "" then t0.key else d.key) := by
  refine ⟨(createTokenData_ok_fields pdt d data hbody).2.2.2.2.1, ?_, ?_⟩
  · rw [create_ok_read_ok_eq pdt api d data p t hbody hc hr]
  · rw [read_ok_eq api d t0 hr0]

/-- C9 witness: with an empty response key, the configured key survives. -/
theorem c9_key_not_clobbered_witness :
    ({ user := some 7, key := none, allowedIps := ["10.0.0.0/24"], writeEnabled := true
       description := "hello", expires := none } : WritableToken).key =
      (if d0.key ≠ "" then some d0.key else none) ∧
    (resourceNetboxTokenCreate pdtOK apiOK d0).state.key =
      (if tok0.key ≠ "" then tok0.key else if tok0.key ≠ "" then tok0.key else d0.key) ∧
    (resourceNetboxTokenRead apiOK d0).state.key =
      (if tok0.key ≠ "" then tok0.key else d0.key) :=
  c9_key_not_clobbered pdtOK apiOK d0
    { user := some 7, key := none, allowedIps := ["10.0.0.0/24"], writeEnabled := true
      description := "hello", expires := none }
    tok0 tok0 tok0 rfl rfl rfl rfl

/-- C10: when the stored resource ID is not a parseable decimal integer the
parse error is silently discarded: the parsed value is 0, read, update and
delete call their endpoint with ID 0, and the operations succeed whenever
the remote calls succeed, with no error contributed by the parse. -/
theorem c10_unparseable_id_uses_zero (pdt : DateParser) (api : NetboxAPI) (d : ResourceData)
    (dataU : WritableToken) (t : Token)
    (hbad : (parseInt64 d.id).2 = some ParseIntErr.errSyn)
    (hbu : updateTokenData pdt d = .ok dataU)
    (hu : api.usersTokensUpdate 0 dataU = .ok ())
    (hr : api.usersTokensRead 0 = .ok t) :
    (parseInt64 d.id).1 = 0 ∧
    (resourceNetboxTokenRead api d).calls = [.tokensRead 0] ∧
    (resourceNetboxTokenRead api d).diags = none ∧
    (resourceNetboxTokenDelete api d).calls = [.tokensDelete 0] ∧
    (resourceNetboxTokenUpdate pdt api d).calls = [.tokensUpdate 0 dataU, .tokensRead 0] ∧
    (resourceNetboxTokenUpdate pdt api d).diags = none := by
  have h0 : (parseInt64 d.id).1 = 0 := parseInt64_errSyn d.id hbad
  have hr2 : api.usersTokensRead (parseInt64 d.id).1 = .ok t := by rw [h0]; exact hr
  have hu2 : api.usersTokensUpdate (parseInt64 d.id).1 dataU = .ok () := by rw [h0]; exact hu
  refine ⟨h0, ?_, ?_, ?_, ?_, ?_⟩
  · rw [read_calls_eq, h0]
  · rw [read_ok_eq api d t hr2]
  · rw [delete_calls_eq, h0]
  · rw [update_ok_eq pdt api d dataU hbu hu2]
    dsimp only
    rw [read_calls_eq, h0]
  · rw [update_ok_eq pdt api d dataU hbu hu2]
    dsimp only
    rw [read_ok_eq api d t hr2]

/-- C10 witness: the stored ID abc parses to 0 with a discarded error. -/
theorem c10_unparseable_id_uses_zero_witness :
    (parseInt64 dBad.id).1 = 0 ∧
    (resourceNetboxTokenRead apiOK dBad).calls = [.tokensRead 0] ∧
    (resourceNetboxTokenRead apiOK dBad).diags = none ∧
    (resourceNetboxTokenDelete apiOK dBad).calls = [.tokensDelete 0] ∧
    (resourceNetboxTokenUpdate pdtOK apiOK dBad).calls =
      [.tokensUpdate 0 { user := some 7, key := none, allowedIps := []
                         writeEnabled := false, description := "", expires := none },
       .tokensRead 0] ∧
    (resourceNetboxTokenUpdate pdtOK apiOK dBad).diags = none :=
  c10_unparseable_id_uses_zero pdtOK apiOK dBad
    { user := some 7, key := none, allowedIps := []
      writeEnabled := false, description := "", expires := none }
    tok0 (by decide) (by decide) rfl rfl
